import Mathlib

/-!
# Verification of the trading core of `token-activity-bot`

Shallow embedding of the pure decision logic of the repository's trading
core (`src/services/trading.js`, `src/services/blockchain.js`,
`src/config/constants.js`) and proofs about it.

Conventions of the embedding:
* JavaScript `bigint` values are modelled as `ℤ` (or `ℕ` where the source
  value is an on-chain unsigned amount); `bigint` division truncates
  toward zero, modelled by `Int.div`.
* JavaScript `number` values that take part in exact comparisons or are
  floored/rounded are modelled as `ℚ` with the exact-value idealisation;
  `Math.floor` is `Int.floor`.
* Fallible code returns `Except`; the external collaborators (quoter
  contract, RPC, timers) enter as explicit parameters recording the
  answers they would give.
-/

namespace TokenBot

/-! ## Constants (`src/config/constants.js`) -/

/-- `POOL_FEE_TIERS = [3000, 10000, 500]` (constants.js:70). -/
def POOL_FEE_TIERS : List ℕ := [3000, 10000, 500]

/-- `SLIPPAGE_TOLERANCE_PERCENT = 5` (constants.js:93). -/
def SLIPPAGE_TOLERANCE_PERCENT : ℚ := 5

/-- `MAX_RETRY_ATTEMPTS = 3` (constants.js:121). -/
def MAX_RETRY_ATTEMPTS : ℕ := 3

/-- `RETRY_BASE_DELAY_MS = 2000` (constants.js:127). -/
def RETRY_BASE_DELAY_MS : ℕ := 2000

/-- `RETRY_BACKOFF_MULTIPLIER = 2` (constants.js:133). -/
def RETRY_BACKOFF_MULTIPLIER : ℕ := 2

/-- `WETH_ADDRESS` on Base (constants.js:57). -/
def WETH_ADDRESS : String := "0x4200000000000000000000000000000000000006"

/-! ## Quote selection (`trading.js`, `findBestPoolFee`) -/

/-- One successful quote: fee tier and quoted output amount
(`bestQuote = { fee, amountOut }` in trading.js:77). -/
structure Quote where
  fee : ℕ
  amountOut : ℕ
deriving DecidableEq, Repr

/-- Details attached to the no-liquidity error (trading.js:109). -/
structure NoLiquidityDetails where
  tokenIn : String
  tokenOut : String
deriving DecidableEq, Repr

/-- Errors raised by the trading-service functions modelled here. -/
inductive TradingError where
  /-- `BlockchainError('No liquidity found for token pair',
  ERROR_CODES.NO_LIQUIDITY, { tokenIn, tokenOut })` (trading.js:106-110). -/
  | noLiquidity (details : NoLiquidityDetails)
  /-- any other `BlockchainError` propagated from a collaborator call. -/
  | other (message : String)
deriving DecidableEq, Repr

/-- The loop body of `findBestPoolFee` (trading.js:79-103): each probe is a
fee tier together with the quoter's answer for it (`none` when
`quoteExactInputSingle.staticCall` threw, i.e. the tier is unavailable).
The running maximum is replaced only on strictly greater output
(`if (amountOut > bestQuote.amountOut)`, trading.js:97). -/
def bestQuoteFold (probes : List (ℕ × Option ℕ)) : Quote :=
  probes.foldl
    (fun best p =>
      match p.2 with
      | none => best
      | some amountOut => if amountOut > best.amountOut then ⟨p.1, amountOut⟩ else best)
    ⟨0, 0⟩

/-- `findBestPoolFee` (trading.js:74-115): fold the probes starting from
`{ fee: 0, amountOut: 0n }`; if the final `amountOut` is `0n`, throw
`NO_LIQUIDITY` carrying both token identifiers, else return the best quote. -/
def findBestPoolFee (tokenIn tokenOut : String) (probes : List (ℕ × Option ℕ)) :
    Except TradingError Quote :=
  let best := bestQuoteFold probes
  if best.amountOut = 0 then
    .error (.noLiquidity ⟨tokenIn, tokenOut⟩)
  else
    .ok best

/-- The successful probes, in probe order, as `Quote`s. -/
def successes (probes : List (ℕ × Option ℕ)) : List Quote :=
  probes.filterMap (fun p => (p.2).map (fun a => ⟨p.1, a⟩))

/-- Maximum output amount over a list of quotes (0 when empty). -/
def maxOut : List Quote → ℕ
  | [] => 0
  | q :: t => max q.amountOut (maxOut t)

/-! ## Minimum output with slippage (`trading.js`, `calculateMinOutput`) -/

/-- `calculateMinOutput` (trading.js:123-126):
`slippageBps = BigInt(Math.floor(slippagePercent * 100))` and
`expectedOutput - (expectedOutput * slippageBps / 10000n)`, where `/` is
`bigint` division (truncation toward zero, `Int.tdiv`). -/
def calculateMinOutput (expectedOutput : ℤ) (slippagePercent : ℚ) : ℤ :=
  let slippageBps : ℤ := ⌊slippagePercent * 100⌋
  expectedOutput - Int.tdiv (expectedOutput * slippageBps) 10000

/-- Modelled from the spec's wording for claim comparison only:
`minOut = E - floor(E * round(S*100) / 10000)` with `round` as stated
(round-half-up, as JS `Math.round`). -/
def minOutSpecRound (expectedOutput : ℤ) (slippagePercent : ℚ) : ℤ :=
  expectedOutput - ⌊(((expectedOutput * round (slippagePercent * 100) : ℤ) : ℚ)) / 10000⌋

/-- Mathematical floor-division form of the same computation, used to state
the amended claim: `E - floor(E * floor(S*100) / 10000)`. -/
def minOutFloorSpec (expectedOutput : ℤ) (slippagePercent : ℚ) : ℤ :=
  expectedOutput - ⌊(((expectedOutput * ⌊slippagePercent * 100⌋ : ℤ) : ℚ)) / 10000⌋

/-! ## Retry logic (`blockchain.js`, `executeWithRetry` / `isNonRetryableError`) -/

/-- A JavaScript error as the retry classifier sees it: only its message
matters (`error.message?.toLowerCase() || ''`, blockchain.js:332); a missing
message is the empty string. -/
structure JsError where
  message : String
deriving DecidableEq, Repr

/-- `pat.isPrefixOf hay` for character lists, mirroring the prefix test that
underlies JS `String.prototype.includes`. -/
def charsHavePfx : List Char → List Char → Bool
  | [], _ => true
  | _ :: _, [] => false
  | p :: ps, c :: cs => p == c && charsHavePfx ps cs

/-- `hay.includes(pat)` on character lists: some suffix of `hay` starts
with `pat`. -/
def charsInclude (pat : List Char) : List Char → Bool
  | [] => pat.isEmpty
  | c :: rest => charsHavePfx pat (c :: rest) || charsInclude pat rest

/-- The fixed fatal-substring taxonomy `nonRetryableMessages`
(blockchain.js:323-330). -/
def nonRetryableMessages : List String :=
  ["insufficient funds",
   "nonce too low",
   "replacement fee too low",
   "already known",
   "invalid private key",
   "execution reverted"]

/-- `message.toLowerCase()`, character by character (as `String.toLower`
maps `Char.toLower` over the characters). -/
def lowerChars (l : List Char) : List Char := l.map Char.toLower

/-- `isNonRetryableError` (blockchain.js:322-334): lowercase the message and
test whether it includes any of the fatal substrings. -/
def isNonRetryableError (e : JsError) : Bool :=
  nonRetryableMessages.any fun msg => charsInclude msg.data (lowerChars e.message.data)

/-- Terminal failure of `executeWithRetry`. -/
inductive RetryFailure where
  /-- a non-retryable error rethrown as-is (`throw error`, blockchain.js:297). -/
  | propagated (e : JsError)
  /-- `BlockchainError('... failed after N attempts', TX_FAILED,
  { lastError })` (blockchain.js:310-314); carries the last underlying
  error's message (`none` when the loop never ran). -/
  | exhausted (lastError : Option JsError)
deriving DecidableEq, Repr

/-- Observable trace of one `executeWithRetry` run: the outcome, how many
times the operation `fn` was invoked, and the backoff sleeps performed, in
order. -/
structure RetryTrace (α : Type) where
  result : Except RetryFailure α
  attemptsMade : ℕ
  sleepsMs : List ℕ
deriving Repr

/-- The loop of `executeWithRetry` (blockchain.js:287-308). `fn attempt` is
the outcome of invoking the operation on the 1-indexed `attempt`;
`remaining` counts the attempts still allowed including the current one
(`attempt ≤ MAX_RETRY_ATTEMPTS` iff `remaining > 0`). On a retryable
failure with attempts remaining the loop sleeps
`RETRY_BASE_DELAY_MS * RETRY_BACKOFF_MULTIPLIER ^ (attempt - 1)`
(blockchain.js:301) and retries. -/
def executeWithRetryGo {α : Type} (fn : ℕ → Except JsError α)
    (baseDelay backoff : ℕ) : ℕ → ℕ → Option JsError → RetryTrace α
  | 0, _, lastError => ⟨.error (.exhausted lastError), 0, []⟩
  | remaining + 1, attempt, _ =>
    match fn attempt with
    | .ok a => ⟨.ok a, 1, []⟩
    | .error e =>
      if isNonRetryableError e then
        ⟨.error (.propagated e), 1, []⟩
      else if remaining = 0 then
        ⟨.error (.exhausted (some e)), 1, []⟩
      else
        let d := baseDelay * backoff ^ (attempt - 1)
        let rest := executeWithRetryGo fn baseDelay backoff remaining (attempt + 1) (some e)
        ⟨rest.result, rest.attemptsMade + 1, d :: rest.sleepsMs⟩

/-- `executeWithRetry` (blockchain.js:284-315) under the default policy
(`MAX_RETRY_ATTEMPTS`, `RETRY_BASE_DELAY_MS`, `RETRY_BACKOFF_MULTIPLIER`). -/
def executeWithRetry {α : Type} (fn : ℕ → Except JsError α) : RetryTrace α :=
  executeWithRetryGo fn RETRY_BASE_DELAY_MS RETRY_BACKOFF_MULTIPLIER MAX_RETRY_ATTEMPTS 1 none

/-! ## Confirmation wait (`blockchain.js`, `waitForTransaction`) -/

/-- Transaction receipt fields read by `waitForTransaction`. -/
structure Receipt where
  status : ℕ
  blockNumber : ℕ
  gasUsed : ℕ
deriving DecidableEq, Repr

/-- Which side of `Promise.race([tx.wait(), timer])` (blockchain.js:359-364)
settles first. -/
inductive WaitRaceOutcome where
  | included (r : Receipt)
  | timerFired
deriving DecidableEq, Repr

/-- Failures of `waitForTransaction`: the timeout rejection and the revert
are distinct conditions. -/
inductive WaitError where
  /-- `new Error('Transaction confirmation timeout')` (blockchain.js:362). -/
  | confirmationTimeout (message : String)
  /-- `BlockchainError('Transaction reverted', TX_REVERTED,
  { txHash, status })` (blockchain.js:367-371). -/
  | reverted (txHash : String) (status : ℕ)
deriving DecidableEq, Repr

/-- Default `timeoutMs = 120000` of `waitForTransaction` (blockchain.js:356). -/
def DEFAULT_CONFIRMATION_TIMEOUT_MS : ℕ := 120000

/-- `waitForTransaction` (blockchain.js:356-380): if the timer wins the race,
reject with the timeout error; if a receipt arrives with `status !== 1`,
throw `Reverted`; else return the receipt. -/
def waitForTransaction (txHash : String) (race : WaitRaceOutcome) :
    Except WaitError Receipt :=
  match race with
  | .timerFired => .error (.confirmationTimeout "Transaction confirmation timeout")
  | .included r => if r.status = 1 then .ok r else .error (.reverted txHash r.status)

/-! ## Shape of the blocking confirmation waits (for the temporal claim) -/

/-- How a confirmation wait is performed in the source: either a
`Promise.race` of the wait against a `setTimeout` timer, or a plain
`await` with no timer. -/
inductive ConfirmationWait where
  | raceWithTimer (timeoutMs : ℕ)
  | awaitDirect
deriving DecidableEq, Repr

/-- A wait is bounded exactly when a timer races it. -/
def ConfirmationWait.bounded : ConfirmationWait → Bool
  | .raceWithTimer _ => true
  | .awaitDirect => false

/-- The swap-confirmation wait: `Promise.race([tx.wait(), setTimeout-timer])`
with the default 120000 ms timeout (blockchain.js:359-364). -/
def waitForTransactionWaitShape : ConfirmationWait :=
  .raceWithTimer DEFAULT_CONFIRMATION_TIMEOUT_MS

/-- The approval-confirmation wait inside `approveToken`:
`const receipt = await tx.wait();` (blockchain.js:229) — a plain await,
no race, no timer. -/
def approveTokenWaitShape : ConfirmationWait := .awaitDirect

/-- Every blocking confirmation wait the core performs: the approval wait in
`approveToken` and the swap wait in `waitForTransaction`. -/
def coreConfirmationWaits : List ConfirmationWait :=
  [approveTokenWaitShape, waitForTransactionWaitShape]

/-! ## Sell flow (`trading.js`, `executeSell`) -/

/-- The `swapParams` record built for `router.exactInputSingle`
(trading.js:352-360). -/
structure SwapParams where
  tokenIn : String
  tokenOut : String
  fee : ℕ
  recipient : String
  amountIn : ℕ
  amountOutMinimum : ℤ
  sqrtPriceLimitX96 : ℕ
deriving DecidableEq, Repr

/-- Collaborator answers consumed by one `executeSell` run:
the wallet's token balance (trading.js:307), the quoter's answer per
`(amountIn, fee)` probe (trading.js:92), and the outcome of the
`approveToken` call (trading.js:340-346), which must succeed before any
swap is submitted. -/
structure SellEnv where
  tokenAddress : String
  walletAddress : String
  tokenBalance : ℕ
  quoter : ℕ → ℕ → Option ℕ
  approval : Except TradingError Unit
  slippageTolerance : ℚ

/-- What `executeSell` does, up to and including the construction of the
swap transaction. Confirmation waiting and balance re-reads after the swap
do not change which transaction was issued and are omitted. -/
inductive SellAction where
  /-- the zero-balance early return (trading.js:309-322): a success with
  `skipped: true`, `reason: 'No tokens to sell'`, and no transaction. -/
  | skipped (reason : String)
  /-- a swap transaction is issued with exactly these parameters
  (trading.js:352-372). -/
  | submitSwap (params : SwapParams)
  /-- the operation failed before any swap was issued. -/
  | fail (e : TradingError)
deriving DecidableEq, Repr

/-- `executeSell` (trading.js:296-376), decision structure: return `skipped`
iff the balance is zero; otherwise quote `(tokenAddress → WETH)` for the
full balance over `POOL_FEE_TIERS`, compute the slippage floor, approve the
router for the full balance, and submit `exactInputSingle` with
`amountIn = tokenBalance`. -/
def executeSell (env : SellEnv) : SellAction :=
  if env.tokenBalance = 0 then
    .skipped "No tokens to sell"
  else
    match findBestPoolFee env.tokenAddress WETH_ADDRESS
        (POOL_FEE_TIERS.map fun f => (f, env.quoter env.tokenBalance f)) with
    | .error e => .fail e
    | .ok q =>
      match env.approval with
      | .error e => .fail e
      | .ok _ =>
        .submitSwap
          { tokenIn := env.tokenAddress
            tokenOut := WETH_ADDRESS
            fee := q.fee
            recipient := env.walletAddress
            amountIn := env.tokenBalance
            amountOutMinimum := calculateMinOutput (q.amountOut : ℤ) env.slippageTolerance
            sqrtPriceLimitX96 := 0 }

/-! ## Lemmas about the quote-selection fold -/

/-- The selection step restricted to successful quotes: replace the running
best only on strictly greater output. -/
def selStep (best q : Quote) : Quote :=
  if q.amountOut > best.amountOut then q else best

theorem bestQuoteFold_eq_foldl (probes : List (ℕ × Option ℕ)) (acc : Quote) :
    probes.foldl
      (fun best p =>
        match p.2 with
        | none => best
        | some amountOut => if amountOut > best.amountOut then ⟨p.1, amountOut⟩ else best)
      acc = (successes probes).foldl selStep acc := by
  induction probes generalizing acc with
  | nil => simp [successes]
  | cons p t ih =>
    rcases p with ⟨fee, r⟩
    cases r with
    | none => simpa [successes, List.filterMap_cons] using ih acc
    | some a =>
      simp only [successes, List.filterMap_cons] at *
      simpa [selStep] using ih _

theorem foldl_selStep_of_le (l : List Quote) (acc : Quote)
    (h : maxOut l ≤ acc.amountOut) : l.foldl selStep acc = acc := by
  induction l generalizing acc with
  | nil => rfl
  | cons q t ih =>
    simp only [maxOut, max_le_iff] at h
    have hstep : selStep acc q = acc := by
      simp [selStep, Nat.not_lt.mpr h.1]
    rw [List.foldl_cons, hstep, ih acc h.2]

theorem foldl_selStep_find (l : List Quote) (acc : Quote)
    (h : acc.amountOut < maxOut l) :
    ∃ q, l.find? (fun x => x.amountOut == maxOut l) = some q ∧
      l.foldl selStep acc = q := by
  induction l generalizing acc with
  | nil => simp [maxOut] at h
  | cons p t ih =>
    simp only [maxOut] at h
    by_cases hp : acc.amountOut < p.amountOut
    · have hstep : selStep acc p = p := by simp [selStep, hp]
      by_cases h1 : maxOut t ≤ p.amountOut
      · have hmax : maxOut (p :: t) = p.amountOut := by
          simp [maxOut, Nat.max_eq_left h1]
        refine ⟨p, ?_, ?_⟩
        · rw [hmax, List.find?_cons_of_pos _ (by simp)]
        · rw [List.foldl_cons, hstep, foldl_selStep_of_le t p h1]
      · push_neg at h1
        have hmax : maxOut (p :: t) = maxOut t := by
          simp [maxOut, Nat.max_eq_right (Nat.le_of_lt h1)]
        obtain ⟨q, hfind, hfold⟩ := ih p h1
        refine ⟨q, ?_, ?_⟩
        · rw [hmax, List.find?_cons_of_neg _ (by simp [Nat.ne_of_lt h1]), hfind]
        · rw [List.foldl_cons, hstep, hfold]
    · push_neg at hp
      have hstep : selStep acc p = acc := by simp [selStep, Nat.not_lt.mpr hp]
      have ht : acc.amountOut < maxOut t := by
        rcases max_choice p.amountOut (maxOut t) with he | he <;> rw [he] at h <;> omega
      have hpt : p.amountOut < maxOut t := lt_of_le_of_lt hp ht
      have hmax : maxOut (p :: t) = maxOut t := by
        simp [maxOut, Nat.max_eq_right (Nat.le_of_lt hpt)]
      obtain ⟨q, hfind, hfold⟩ := ih acc ht
      refine ⟨q, ?_, ?_⟩
      · rw [hmax, List.find?_cons_of_neg _ (by simp [Nat.ne_of_lt hpt]), hfind]
      · rw [List.foldl_cons, hstep, hfold]

theorem foldl_selStep_amountOut (l : List Quote) (acc : Quote) :
    (l.foldl selStep acc).amountOut = max acc.amountOut (maxOut l) := by
  induction l generalizing acc with
  | nil => simp [maxOut]
  | cons q t ih =>
    rw [List.foldl_cons, ih]
    have hstep : (selStep acc q).amountOut = max acc.amountOut q.amountOut := by
      by_cases h : acc.amountOut < q.amountOut
      · simp [selStep, h, Nat.max_eq_right (Nat.le_of_lt h)]
      · push_neg at h
        simp [selStep, Nat.not_lt.mpr h, Nat.max_eq_left h]
    rw [hstep, maxOut, Nat.max_assoc]

theorem bestQuoteFold_amountOut (probes : List (ℕ × Option ℕ)) :
    (bestQuoteFold probes).amountOut = maxOut (successes probes) := by
  rw [bestQuoteFold, bestQuoteFold_eq_foldl, foldl_selStep_amountOut]
  simp

/-! ## C1 — quote selection returns the maximal quote, ties to the earliest tier -/

/-- C1 (counterexample): a probe over the fixed fee-tier list where the
fee-3000 quote query succeeds — returning output `0` — yet `findBestPoolFee`
does not return that successful quote: it throws `NO_LIQUIDITY`. The claim
as stated (any successful query suffices) is therefore false; a successful
zero-output quote is treated as no liquidity. -/
theorem c1_zero_output_counterexample :
    [((3000 : ℕ), (some 0 : Option ℕ)), (10000, none), (500, none)].map Prod.fst
        = POOL_FEE_TIERS ∧
    successes [(3000, some 0), (10000, none), (500, none)] = [⟨3000, 0⟩] ∧
    findBestPoolFee "0xTokenIn" "0xTokenOut" [(3000, some 0), (10000, none), (500, none)]
        = .error (.noLiquidity ⟨"0xTokenIn", "0xTokenOut"⟩) :=
  ⟨rfl, rfl, rfl⟩

/-- C1 (amended): whenever at least one quote query succeeds with strictly
positive output, `findBestPoolFee` returns the successful quote of maximal
output amount, and on ties the earliest-probed tier is kept: the returned
quote is the first successful probe attaining the maximum (the running
maximum is replaced only on strictly greater output). -/
theorem findBestPoolFee_selects_first_max (tokenIn tokenOut : String)
    (probes : List (ℕ × Option ℕ)) (h : 0 < maxOut (successes probes)) :
    ∃ q, findBestPoolFee tokenIn tokenOut probes = .ok q ∧
      q.amountOut = maxOut (successes probes) ∧
      (successes probes).find? (fun x => x.amountOut == maxOut (successes probes))
        = some q := by
  obtain ⟨q, hfind, hfold⟩ :=
    foldl_selStep_find (successes probes) ⟨0, 0⟩ h
  have hq : bestQuoteFold probes = q := by
    rw [bestQuoteFold, bestQuoteFold_eq_foldl, hfold]
  have hamt : q.amountOut = maxOut (successes probes) := by
    have := List.find?_some hfind
    simpa using this
  refine ⟨q, ?_, hamt, hfind⟩
  rw [findBestPoolFee, hq]
  simp only [hamt]
  rw [if_neg (by omega)]

/-- C1 (witness): three successful probes `7, 9, 9`; the maximum `9` is
quoted by both the 10000 and the 500 tier, and the earlier-probed 10000
tier is returned. -/
theorem findBestPoolFee_selects_first_max_witness :
    findBestPoolFee "0xTokenIn" "0xTokenOut"
      [(3000, some 7), (10000, some 9), (500, some 9)] = .ok ⟨10000, 9⟩ := by
  obtain ⟨q, hok, -, hfind⟩ :=
    findBestPoolFee_selects_first_max "0xTokenIn" "0xTokenOut"
      [(3000, some 7), (10000, some 9), (500, some 9)] (by decide)
  have hval : (successes [(3000, some 7), (10000, some 9), (500, some 9)]).find?
      (fun x => x.amountOut == maxOut (successes [(3000, some 7), (10000, some 9), (500, some 9)]))
        = some ⟨10000, 9⟩ := by decide
  rw [hval] at hfind
  cases hfind
  exact hok

/-! ## C3 — no usable quote means a NoLiquidity failure carrying both tokens -/

/-- C3: when no fee tier produced a usable (positive-output) quote,
`findBestPoolFee` fails with the `NO_LIQUIDITY` error whose details carry
both token identifiers; and it never returns a zero-output quote as a
success. -/
theorem findBestPoolFee_no_liquidity (tokenIn tokenOut : String)
    (probes : List (ℕ × Option ℕ)) :
    (maxOut (successes probes) = 0 →
      findBestPoolFee tokenIn tokenOut probes
        = .error (.noLiquidity ⟨tokenIn, tokenOut⟩)) ∧
    (∀ q, findBestPoolFee tokenIn tokenOut probes = .ok q → 0 < q.amountOut) := by
  constructor
  · intro h
    rw [findBestPoolFee, if_pos]
    rw [bestQuoteFold_amountOut, h]
  · intro q hq
    rw [findBestPoolFee] at hq
    by_cases h0 : (bestQuoteFold probes).amountOut = 0
    · simp [h0] at hq
    · rw [if_neg h0] at hq
      cases hq
      omega

/-- C3 (witness): every tier unavailable ⇒ `NO_LIQUIDITY` with both token
identifiers; and the zero-output-success clause instantiated at the same
probe set. -/
theorem findBestPoolFee_no_liquidity_witness :
    findBestPoolFee "0xTokenIn" "0xTokenOut" [(3000, none), (10000, none), (500, none)]
      = .error (.noLiquidity ⟨"0xTokenIn", "0xTokenOut"⟩) :=
  (findBestPoolFee_no_liquidity "0xTokenIn" "0xTokenOut"
    [(3000, none), (10000, none), (500, none)]).1 (by decide)

/-! ## Lemmas about `calculateMinOutput` -/

/-- With nonnegative expected output and slippage, the `bigint` truncating
division in `calculateMinOutput` coincides with Euclidean division. -/
theorem calculateMinOutput_eq_sub_ediv (E : ℤ) (S : ℚ) (hE : 0 ≤ E) (hS : 0 ≤ S) :
    calculateMinOutput E S = E - (E * ⌊S * 100⌋) / 10000 := by
  have hbps : (0 : ℤ) ≤ ⌊S * 100⌋ :=
    Int.floor_nonneg.mpr (mul_nonneg hS (by norm_num))
  rw [calculateMinOutput]
  rw [Int.tdiv_eq_ediv (mul_nonneg hE hbps) (by norm_num)]

/-- Upper bound on the basis-point value: `S ≤ 100` gives `⌊S*100⌋ ≤ 10000`. -/
theorem floor_bps_le (S : ℚ) (h : S ≤ 100) : (⌊S * 100⌋ : ℤ) ≤ 10000 := by
  have h1 : S * 100 ≤ (10000 : ℚ) := by nlinarith
  have h2 := Int.floor_le_floor h1
  simpa using h2

/-! ## C2 — the minimum-output formula -/

/-- C2 (counterexample): the claim's formula uses `round(S*100)` but the code
floors. At `E = 10000`, `S = 1/200` (0.005 %) the code computes basis
points `⌊0.5⌋ = 0` and returns `10000`, while the claimed formula rounds
`0.5` up to `1` and yields `9999`. -/
theorem calculateMinOutput_round_counterexample :
    calculateMinOutput 10000 (1 / 200) = 10000 ∧
    minOutSpecRound 10000 (1 / 200) = 9999 ∧
    calculateMinOutput 10000 (1 / 200) ≠ minOutSpecRound 10000 (1 / 200) := by
  have hr : round ((1 : ℚ) / 2) = 1 := by
    rw [round_eq]; norm_num
  refine ⟨?_, ?_, ?_⟩
  · norm_num [calculateMinOutput, Int.tdiv]
  · norm_num [minOutSpecRound, hr]
  · norm_num [calculateMinOutput, minOutSpecRound, Int.tdiv, hr]

/-- C2 (amended): for `E ≥ 0` and `S ≥ 0` the computation equals
`E - floor(E * floor(S*100) / 10000)` — `floor`, not `round`, of `S*100` —
in exact integer arithmetic; for `S ∈ [0,100]` the result is at most `E`,
and for `S = 0` it equals `E` exactly. -/
theorem calculateMinOutput_floor_formula (E : ℤ) (S : ℚ) (hE : 0 ≤ E) (hS : 0 ≤ S) :
    calculateMinOutput E S = minOutFloorSpec E S ∧
    (S ≤ 100 → calculateMinOutput E S ≤ E) ∧
    calculateMinOutput E 0 = E := by
  have hbps : (0 : ℤ) ≤ ⌊S * 100⌋ :=
    Int.floor_nonneg.mpr (mul_nonneg hS (by norm_num))
  refine ⟨?_, ?_, ?_⟩
  · rw [calculateMinOutput_eq_sub_ediv E S hE hS, minOutFloorSpec]
    have h2 : ⌊((E * ⌊S * 100⌋ : ℤ) : ℚ) / 10000⌋ = (E * ⌊S * 100⌋) / 10000 := by
      have := Rat.floor_intCast_div_natCast (E * ⌊S * 100⌋) 10000
      simpa using this
    rw [h2]
  · intro _
    rw [calculateMinOutput_eq_sub_ediv E S hE hS]
    have : (0 : ℤ) ≤ (E * ⌊S * 100⌋) / 10000 :=
      Int.ediv_nonneg (mul_nonneg hE hbps) (by norm_num)
    omega
  · rw [calculateMinOutput]
    norm_num

/-- C2 (witness): at `E = 1000`, `S = 5` the floor formula, the bound and
the zero-slippage identity hold, with value `950`. -/
theorem calculateMinOutput_floor_formula_witness :
    calculateMinOutput 1000 5 = minOutFloorSpec 1000 5 ∧
    calculateMinOutput 1000 5 ≤ 1000 ∧
    calculateMinOutput 1000 0 = 1000 ∧
    calculateMinOutput 1000 5 = 950 :=
  ⟨(calculateMinOutput_floor_formula 1000 5 (by norm_num) (by norm_num)).1,
   (calculateMinOutput_floor_formula 1000 5 (by norm_num) (by norm_num)).2.1 (by norm_num),
   (calculateMinOutput_floor_formula 1000 5 (by norm_num) (by norm_num)).2.2,
   by norm_num [calculateMinOutput, Int.tdiv]⟩

/-! ## C10 — no validation of the slippage percentage -/

/-- C10: for `E ≥ 0` and `S ∈ [0,100]` the result is nonnegative, reaching
exactly `0` at `S = 100`; but there is no guard for `S > 100`: at `S = 101`
the result is negative for every `E ≥ 10000`. -/
theorem calculateMinOutput_no_slippage_validation (E : ℤ) (hE : 0 ≤ E) :
    (∀ S : ℚ, 0 ≤ S → S ≤ 100 → 0 ≤ calculateMinOutput E S) ∧
    calculateMinOutput E 100 = 0 ∧
    (10000 ≤ E → calculateMinOutput E 101 < 0) := by
  refine ⟨?_, ?_, ?_⟩
  · intro S hS0 hS1
    rw [calculateMinOutput_eq_sub_ediv E S hE hS0]
    have hbps : (0 : ℤ) ≤ ⌊S * 100⌋ :=
      Int.floor_nonneg.mpr (mul_nonneg hS0 (by norm_num))
    have hle : E * ⌊S * 100⌋ ≤ E * 10000 :=
      mul_le_mul_of_nonneg_left (floor_bps_le S hS1) hE
    have hdiv : (E * ⌊S * 100⌋) / 10000 ≤ (E * 10000) / 10000 :=
      Int.ediv_le_ediv (by norm_num) hle
    have hcancel : (E * 10000) / 10000 = E := by
      rw [Int.mul_ediv_cancel E (by norm_num)]
    omega
  · rw [calculateMinOutput_eq_sub_ediv E 100 hE (by norm_num)]
    have hfl : (⌊(100 : ℚ) * 100⌋ : ℤ) = 10000 := by norm_num
    rw [hfl, Int.mul_ediv_cancel E (by norm_num)]
    omega
  · intro hbig
    rw [calculateMinOutput_eq_sub_ediv E 101 hE (by norm_num)]
    have hfl : (⌊(101 : ℚ) * 100⌋ : ℤ) = 10100 := by norm_num
    rw [hfl]
    have hlt : E + 1 ≤ (E * 10100) / 10000 := by
      rw [Int.le_ediv_iff_mul_le (by norm_num : (0:ℤ) < 10000)]
      nlinarith
    omega

/-- C10 (witness): at `E = 10000` the result is nonnegative for `S = 5`,
zero at `S = 100`, and negative at `S = 101`. -/
theorem calculateMinOutput_no_slippage_validation_witness :
    0 ≤ calculateMinOutput 10000 5 ∧
    calculateMinOutput 10000 100 = 0 ∧
    calculateMinOutput 10000 101 < 0 :=
  ⟨(calculateMinOutput_no_slippage_validation 10000 (by norm_num)).1 5
      (by norm_num) (by norm_num),
   (calculateMinOutput_no_slippage_validation 10000 (by norm_num)).2.1,
   (calculateMinOutput_no_slippage_validation 10000 (by norm_num)).2.2 (by norm_num)⟩

/-! ## C4 — retry with exponential backoff, exhaustion carries the last error -/

/-- C4: an operation that fails retryably on attempts 1 and 2 and succeeds
on attempt 3 returns the success after exactly 3 invocations with exactly
two backoff sleeps of `2000` ms and `4000` ms
(`baseDelay * backoffMultiplier^(attempt-1)` under the default policy);
and an operation that fails retryably on every attempt is invoked exactly
3 times, sleeps the same two delays — none after the final attempt — and
fails with the exhausted-retries error carrying the last underlying error. -/
theorem executeWithRetryGo_step_ok {α : Type} (fn : ℕ → Except JsError α)
    (b m r attempt : ℕ) (last : Option JsError) (a : α)
    (h : fn attempt = .ok a) :
    executeWithRetryGo fn b m (r + 1) attempt last = ⟨.ok a, 1, []⟩ := by
  rw [executeWithRetryGo, h]

theorem executeWithRetryGo_step_fatal {α : Type} (fn : ℕ → Except JsError α)
    (b m r attempt : ℕ) (last : Option JsError) (e : JsError)
    (h : fn attempt = .error e) (hf : isNonRetryableError e = true) :
    executeWithRetryGo fn b m (r + 1) attempt last
      = ⟨.error (.propagated e), 1, []⟩ := by
  rw [executeWithRetryGo, h]
  simp [hf]

theorem executeWithRetryGo_step_last {α : Type} (fn : ℕ → Except JsError α)
    (b m attempt : ℕ) (last : Option JsError) (e : JsError)
    (h : fn attempt = .error e) (hf : isNonRetryableError e = false) :
    executeWithRetryGo fn b m (0 + 1) attempt last
      = ⟨.error (.exhausted (some e)), 1, []⟩ := by
  rw [executeWithRetryGo, h]
  simp [hf]

theorem executeWithRetryGo_step_retry {α : Type} (fn : ℕ → Except JsError α)
    (b m r attempt : ℕ) (last : Option JsError) (e : JsError)
    (h : fn attempt = .error e) (hf : isNonRetryableError e = false)
    (hr : r ≠ 0) :
    executeWithRetryGo fn b m (r + 1) attempt last =
      ⟨(executeWithRetryGo fn b m r (attempt + 1) (some e)).result,
       (executeWithRetryGo fn b m r (attempt + 1) (some e)).attemptsMade + 1,
       b * m ^ (attempt - 1)
         :: (executeWithRetryGo fn b m r (attempt + 1) (some e)).sleepsMs⟩ := by
  rw [executeWithRetryGo, h]
  simp [hf, hr]

theorem executeWithRetry_backoff {α : Type} (fn gn : ℕ → Except JsError α)
    (e1 e2 : JsError) (a : α) (err : ℕ → JsError)
    (h1 : fn 1 = .error e1) (r1 : isNonRetryableError e1 = false)
    (h2 : fn 2 = .error e2) (r2 : isNonRetryableError e2 = false)
    (h3 : fn 3 = .ok a)
    (hg : ∀ i, gn i = .error (err i))
    (hr : ∀ i, isNonRetryableError (err i) = false) :
    executeWithRetry fn = ⟨.ok a, 3, [2000, 4000]⟩ ∧
    executeWithRetry gn = ⟨.error (.exhausted (some (err 3))), 3, [2000, 4000]⟩ := by
  constructor
  · show executeWithRetryGo fn 2000 2 (2 + 1) 1 none = _
    rw [executeWithRetryGo_step_retry fn 2000 2 2 1 none e1 h1 r1 (by omega)]
    have hs2 : executeWithRetryGo fn 2000 2 2 2 (some e1) = ⟨.ok a, 2, [4000]⟩ := by
      show executeWithRetryGo fn 2000 2 (1 + 1) 2 (some e1) = _
      rw [executeWithRetryGo_step_retry fn 2000 2 1 2 (some e1) e2 h2 r2 (by omega)]
      have hs3 : executeWithRetryGo fn 2000 2 1 3 (some e2) = ⟨.ok a, 1, []⟩ := by
        show executeWithRetryGo fn 2000 2 (0 + 1) 3 (some e2) = _
        exact executeWithRetryGo_step_ok fn 2000 2 0 3 (some e2) a h3
      rw [hs3]
      norm_num
    rw [hs2]
    norm_num
  · show executeWithRetryGo gn 2000 2 (2 + 1) 1 none = _
    rw [executeWithRetryGo_step_retry gn 2000 2 2 1 none (err 1) (hg 1) (hr 1) (by omega)]
    have hs2 : executeWithRetryGo gn 2000 2 2 2 (some (err 1))
        = ⟨.error (.exhausted (some (err 3))), 2, [4000]⟩ := by
      show executeWithRetryGo gn 2000 2 (1 + 1) 2 (some (err 1)) = _
      rw [executeWithRetryGo_step_retry gn 2000 2 1 2 (some (err 1)) (err 2)
        (hg 2) (hr 2) (by omega)]
      have hs3 : executeWithRetryGo gn 2000 2 1 3 (some (err 2))
          = ⟨.error (.exhausted (some (err 3))), 1, []⟩ := by
        show executeWithRetryGo gn 2000 2 (0 + 1) 3 (some (err 2)) = _
        exact executeWithRetryGo_step_last gn 2000 2 3 (some (err 2)) (err 3)
          (hg 3) (hr 3)
      rw [hs3]
      norm_num
    rw [hs2]
    norm_num

/-- Concrete operation for the C4 witness: retryable failures on attempts
1 and 2, success on attempt 3. -/
def retryFnOkAt3 : ℕ → Except JsError ℕ
  | 3 => .ok 42
  | _ => .error ⟨"network timeout"⟩

/-- Concrete operation for the C4 witness: a retryable failure on every
attempt. -/
def retryFnAlwaysFails : ℕ → Except JsError ℕ :=
  fun _ => .error ⟨"network timeout"⟩

/-- C4 (witness): the two scenarios at concrete operations. -/
theorem executeWithRetry_backoff_witness :
    executeWithRetry retryFnOkAt3 = ⟨.ok 42, 3, [2000, 4000]⟩ ∧
    executeWithRetry retryFnAlwaysFails
      = ⟨.error (.exhausted (some ⟨"network timeout"⟩)), 3, [2000, 4000]⟩ :=
  executeWithRetry_backoff retryFnOkAt3 retryFnAlwaysFails
    ⟨"network timeout"⟩ ⟨"network timeout"⟩ 42 (fun _ => ⟨"network timeout"⟩)
    rfl rfl rfl rfl rfl (fun _ => rfl) (fun _ => rfl)

/-! ## C5 — fatal errors are never retried -/

/-- C5: an operation whose every invocation raises an error matching the
fixed fatal-substring taxonomy is invoked exactly once; the error is
propagated as-is, with no further attempts and no backoff sleep. -/
theorem executeWithRetry_fatal_once {α : Type} (fn : ℕ → Except JsError α)
    (err : ℕ → JsError)
    (h : ∀ i, fn i = .error (err i))
    (hf : ∀ i, isNonRetryableError (err i) = true) :
    executeWithRetry fn = ⟨.error (.propagated (err 1)), 1, []⟩ := by
  show executeWithRetryGo fn 2000 2 (2 + 1) 1 none = _
  exact executeWithRetryGo_step_fatal fn 2000 2 2 1 none (err 1) (h 1) (hf 1)

/-- Concrete operation for the C5 witness: always fails with an
insufficient-funds error (fatal taxonomy). -/
def retryFnFatal : ℕ → Except JsError ℕ :=
  fun _ => .error ⟨"insufficient funds for gas * price + value"⟩

/-- C5 (witness): the fatal operation is attempted exactly once and its
error propagated with no sleeps. -/
theorem executeWithRetry_fatal_once_witness :
    executeWithRetry retryFnFatal
      = ⟨.error (.propagated ⟨"insufficient funds for gas * price + value"⟩), 1, []⟩ :=
  executeWithRetry_fatal_once retryFnFatal
    (fun _ => ⟨"insufficient funds for gas * price + value"⟩)
    (fun _ => rfl) (fun _ => rfl)

/-! ## C6 — SELL skips exactly on zero balance and always sells the full balance -/

/-- C6: `executeSell` returns the distinguished skipped result (a success
with no transaction, reason `'No tokens to sell'`) if and only if the token
balance is exactly zero; and whenever a swap is submitted, its `amountIn`
is exactly the full token balance, which is then positive. -/
theorem executeSell_skip_iff_zero_and_sells_all (env : SellEnv) :
    (executeSell env = .skipped "No tokens to sell" ↔ env.tokenBalance = 0) ∧
    (∀ p, executeSell env = .submitSwap p →
      p.amountIn = env.tokenBalance ∧ 0 < env.tokenBalance) := by
  by_cases hb : env.tokenBalance = 0
  · rw [executeSell, if_pos hb]
    refine ⟨⟨fun _ => hb, fun _ => rfl⟩, ?_⟩
    intro p hp
    exact absurd hp (by simp)
  · rw [executeSell, if_neg hb]
    refine ⟨⟨?_, fun h => absurd h hb⟩, ?_⟩
    · intro h
      exfalso
      revert h
      split
      · intro h; exact SellAction.noConfusion h
      · split
        · intro h; exact SellAction.noConfusion h
        · intro h; simp at h
    · intro p hp
      refine ⟨?_, Nat.pos_of_ne_zero hb⟩
      revert hp
      split
      · intro hp; exact SellAction.noConfusion hp
      · split
        · intro hp; exact SellAction.noConfusion hp
        · intro hp
          cases hp
          rfl

/-- C6 (witness environment): zero balance. -/
def sellEnvZero : SellEnv :=
  { tokenAddress := "0xToken", walletAddress := "0xWallet", tokenBalance := 0
    quoter := fun _ _ => none, approval := .ok (), slippageTolerance := 5 }

/-- C6 (witness environment): balance 5, the 0.3 % tier quotes 100 out. -/
def sellEnvFive : SellEnv :=
  { tokenAddress := "0xToken", walletAddress := "0xWallet", tokenBalance := 5
    quoter := fun _ f => if f = 3000 then some 100 else none
    approval := .ok (), slippageTolerance := 5 }

/-- The swap parameters `executeSell` builds in `sellEnvFive`. -/
def sellParamsFive : SwapParams :=
  { tokenIn := "0xToken", tokenOut := WETH_ADDRESS, fee := 3000
    recipient := "0xWallet", amountIn := 5, amountOutMinimum := 95
    sqrtPriceLimitX96 := 0 }

theorem executeSell_sellEnvFive_eval :
    executeSell sellEnvFive = .submitSwap sellParamsFive := by
  norm_num [executeSell, sellEnvFive, sellParamsFive, findBestPoolFee,
    bestQuoteFold, POOL_FEE_TIERS, WETH_ADDRESS, calculateMinOutput, Int.tdiv]

/-- C6 (witness): zero balance skips; balance 5 submits a swap whose
`amountIn` is the full balance. -/
theorem executeSell_skip_iff_zero_and_sells_all_witness :
    executeSell sellEnvZero = .skipped "No tokens to sell" ∧
    sellParamsFive.amountIn = sellEnvFive.tokenBalance ∧
    0 < sellEnvFive.tokenBalance :=
  ⟨(executeSell_skip_iff_zero_and_sells_all sellEnvZero).1.mpr rfl,
   (executeSell_skip_iff_zero_and_sells_all sellEnvFive).2 sellParamsFive
     executeSell_sellEnvFive_eval⟩

/-! ## C8 — revert is surfaced distinctly, never as success, apart from timeout -/

/-- C8: a receipt with non-success status makes `waitForTransaction` fail
with the `Reverted` error (never a success); a success is only ever
returned for status 1; the timer firing yields the distinct
confirmation-timeout condition (bounded default 120000 ms), which is a
different error from `Reverted`. -/
theorem waitForTransaction_revert_vs_timeout (txHash : String)
    (race : WaitRaceOutcome) :
    (∀ r, race = .included r → r.status ≠ 1 →
      waitForTransaction txHash race = .error (.reverted txHash r.status)) ∧
    (∀ r, waitForTransaction txHash race = .ok r → r.status = 1) ∧
    waitForTransaction txHash .timerFired
      = .error (.confirmationTimeout "Transaction confirmation timeout") ∧
    (∀ m h s, WaitError.confirmationTimeout m ≠ WaitError.reverted h s) ∧
    DEFAULT_CONFIRMATION_TIMEOUT_MS = 120000 := by
  refine ⟨?_, ?_, rfl, ?_, rfl⟩
  · intro r hrace hst
    subst hrace
    rw [waitForTransaction]
    simp [hst]
  · intro r h
    cases race with
    | timerFired => exact Except.noConfusion h
    | included r' =>
      rw [waitForTransaction] at h
      by_cases hs : r'.status = 1
      · rw [if_pos hs] at h
        cases h
        exact hs
      · rw [if_neg hs] at h
        exact Except.noConfusion h
  · intro m h s
    exact fun he => WaitError.noConfusion he

/-- C8 (witness): a status-0 inclusion is reported as `Reverted` and the
timer firing as the distinct timeout error. -/
theorem waitForTransaction_revert_vs_timeout_witness :
    waitForTransaction "0xdeadbeef" (.included ⟨0, 105, 21000⟩)
      = .error (.reverted "0xdeadbeef" 0) ∧
    waitForTransaction "0xdeadbeef" .timerFired
      = .error (.confirmationTimeout "Transaction confirmation timeout") :=
  ⟨(waitForTransaction_revert_vs_timeout "0xdeadbeef"
      (.included ⟨0, 105, 21000⟩)).1 ⟨0, 105, 21000⟩ rfl (by decide),
   (waitForTransaction_revert_vs_timeout "0xdeadbeef" .timerFired).2.2.1⟩

/-! ## C9 — bounded confirmation waits -/

/-- C9 (counterexample): the approval-confirmation wait inside
`approveToken` is a plain `await tx.wait()` with no timer, so not every
confirmation wait of the core is bounded by a race with a timer — the
claim as stated is false. -/
theorem approval_wait_unbounded_counterexample :
    approveTokenWaitShape = .awaitDirect ∧
    ConfirmationWait.bounded approveTokenWaitShape = false ∧
    coreConfirmationWaits.all ConfirmationWait.bounded = false :=
  ⟨rfl, rfl, rfl⟩

/-- C9 (amended): the swap-confirmation wait in `waitForTransaction` is
bounded by a `Promise.race` against a timer with the default 120000 ms
timeout, but the approval-confirmation wait inside `approveToken` is a
plain unbounded await; the boundedness claim holds only for the former. -/
theorem confirmation_wait_shapes :
    waitForTransactionWaitShape = .raceWithTimer DEFAULT_CONFIRMATION_TIMEOUT_MS ∧
    ConfirmationWait.bounded waitForTransactionWaitShape = true ∧
    DEFAULT_CONFIRMATION_TIMEOUT_MS = 120000 ∧
    approveTokenWaitShape = .awaitDirect ∧
    ConfirmationWait.bounded approveTokenWaitShape = false :=
  ⟨rfl, rfl, rfl, rfl, rfl⟩

end TokenBot
